import Mathlib

/-!
Verification of the geometry/interaction core of the tsp-solver-frontend
repository: coordinate projection, route metrics, selection linking,
and the two rendering backends.  Floating-point coordinates are modelled
by rationals; Euclidean distances (which the code obtains via Math.sqrt)
live in the reals.
-/

namespace TSPFrontend

/-- A location in problem space (`Point` of src/types/tsp.ts): `x` and `y`
coordinates.  The optional `address` field plays no role in any geometric
computation and is omitted. -/
structure Pt where
  x : ℚ
  y : ℚ
deriving DecidableEq, Repr

/-- Default point used for out-of-range list reads (the code only ever
indexes in range, so the default is never observed). -/
def ptZero : Pt := ⟨0, 0⟩

/-- `Math.min(...xs)` over a non-empty coordinate list (`[]` gives `0`;
the code guards against empty point sets before calling it). -/
def listMin : List ℚ → ℚ
  | [] => 0
  | v :: vs => vs.foldl min v

/-- `Math.max(...xs)` over a non-empty coordinate list. -/
def listMax : List ℚ → ℚ
  | [] => 0
  | v :: vs => vs.foldl max v

/-- JavaScript's `maxX - minX || 1`: substitute `1` when the range is `0`. -/
def jsRange (r : ℚ) : ℚ := if r = 0 then 1 else r

/-- The projection both renderers implement (`scalePoint` in
TSPVisualizationSVG.tsx lines 57–92 and TSPVisualization.tsx lines 75–98),
with the viewport width `W`, height `H` and padding `p` as parameters:
bounding box of `pts`, ranges with the `|| 1` guard, uniform
`scale = min sX sY`, centering offsets, and a flipped y axis. -/
def projectPoint (W H p : ℚ) (pts : List Pt) (pt : Pt) : ℚ × ℚ :=
  let minX := listMin (pts.map Pt.x)
  let maxX := listMax (pts.map Pt.x)
  let minY := listMin (pts.map Pt.y)
  let maxY := listMax (pts.map Pt.y)
  let rangeX := jsRange (maxX - minX)
  let rangeY := jsRange (maxY - minY)
  let scale := min ((W - 2 * p) / rangeX) ((H - 2 * p) / rangeY)
  let offsetX := (W - rangeX * scale) / 2 - minX * scale
  let offsetY := (H - rangeY * scale) / 2 - minY * scale
  (pt.x * scale + offsetX, H - (pt.y * scale + offsetY))

/-- `scalePoint` of TSPVisualizationSVG.tsx with its fixed constants
`svgWidth = 800`, `svgHeight = 600`, `padding = 60`. -/
def svgScalePoint (pts : List Pt) (pt : Pt) : ℚ × ℚ :=
  let minX := listMin (pts.map Pt.x)
  let maxX := listMax (pts.map Pt.x)
  let minY := listMin (pts.map Pt.y)
  let maxY := listMax (pts.map Pt.y)
  let rangeX := jsRange (maxX - minX)
  let rangeY := jsRange (maxY - minY)
  let scale := min ((800 - 2 * 60) / rangeX) ((600 - 2 * 60) / rangeY)
  let offsetX := (800 - rangeX * scale) / 2 - minX * scale
  let offsetY := (600 - rangeY * scale) / 2 - minY * scale
  (pt.x * scale + offsetX, 600 - (pt.y * scale + offsetY))

/-- `scalePoint` of TSPVisualization.tsx (canvas backend): the canvas
width and height are runtime values (state initialised to 600×400 and
updated on resize), the padding is the fixed `40`. -/
def canvasScalePoint (W H : ℚ) (pts : List Pt) (pt : Pt) : ℚ × ℚ :=
  let minX := listMin (pts.map Pt.x)
  let maxX := listMax (pts.map Pt.x)
  let minY := listMin (pts.map Pt.y)
  let maxY := listMax (pts.map Pt.y)
  let rangeX := jsRange (maxX - minX)
  let rangeY := jsRange (maxY - minY)
  let scale := min ((W - 2 * 40) / rangeX) ((H - 2 * 40) / rangeY)
  let offsetX := (W - rangeX * scale) / 2 - minX * scale
  let offsetY := (H - rangeY * scale) / 2 - minY * scale
  (pt.x * scale + offsetX, H - (pt.y * scale + offsetY))

lemma listMin_le_of_mem {l : List ℚ} {v : ℚ} (hv : v ∈ l) : listMin l ≤ v := by
  cases l with
  | nil => cases hv
  | cons a as =>
    suffices h : ∀ (xs : List ℚ) (b : ℚ), (∀ w ∈ xs, xs.foldl min b ≤ w) ∧ xs.foldl min b ≤ b by
      rcases List.mem_cons.mp hv with rfl | hmem
      · exact (h as v).2
      · exact (h as a).1 v hmem
    intro xs
    induction xs with
    | nil => intro b; exact ⟨by simp, le_refl b⟩
    | cons c cs ih =>
      intro b
      constructor
      · intro w hw
        rcases List.mem_cons.mp hw with rfl | hmem
        · exact le_trans (ih (min b w)).2 (min_le_right b w)
        · exact (ih (min b c)).1 w hmem
      · exact le_trans (ih (min b c)).2 (min_le_left b c)

lemma le_listMax_of_mem {l : List ℚ} {v : ℚ} (hv : v ∈ l) : v ≤ listMax l := by
  cases l with
  | nil => cases hv
  | cons a as =>
    suffices h : ∀ (xs : List ℚ) (b : ℚ), (∀ w ∈ xs, w ≤ xs.foldl max b) ∧ b ≤ xs.foldl max b by
      rcases List.mem_cons.mp hv with rfl | hmem
      · exact (h as v).2
      · exact (h as a).1 v hmem
    intro xs
    induction xs with
    | nil => intro b; exact ⟨by simp, le_refl b⟩
    | cons c cs ih =>
      intro b
      constructor
      · intro w hw
        rcases List.mem_cons.mp hw with rfl | hmem
        · exact le_trans (le_max_right b w) (ih (max b w)).2
        · exact (ih (max b c)).1 w hmem
      · exact le_trans (le_max_left b c) (ih (max b c)).2

lemma listMin_le_listMax {l : List ℚ} (h : l ≠ []) : listMin l ≤ listMax l := by
  cases l with
  | nil => exact absurd rfl h
  | cons a as =>
    exact le_trans (listMin_le_of_mem (List.mem_cons_self a as))
      (le_listMax_of_mem (List.mem_cons_self a as))

lemma jsRange_pos {a b : ℚ} (h : a ≤ b) : 0 < jsRange (b - a) := by
  unfold jsRange
  split
  · norm_num
  · rename_i hne
    have : 0 ≤ b - a := by linarith
    rcases lt_or_eq_of_le this with h' | h'
    · exact h'
    · exact absurd h'.symm hne

lemma le_jsRange {a b : ℚ} (_h : a ≤ b) : b - a ≤ jsRange (b - a) := by
  unfold jsRange
  split
  · rename_i h0; rw [h0]; norm_num
  · exact le_refl _

/-- `calculateDistance` (SolutionDetails lines 320–324 and
TSPVisualizationSVG.tsx lines 37–41): the Euclidean distance
`Math.sqrt(dx*dx + dy*dy)` between two points. -/
noncomputable def calculateDistance (p1 p2 : Pt) : ℝ :=
  Real.sqrt (((p2.x - p1.x) * (p2.x - p1.x) + (p2.y - p1.y) * (p2.y - p1.y) : ℚ) : ℝ)

/-- `getRouteDistances` (SolutionDetails lines 326–334): for
`i = 0 .. route.length - 1` push the distance from `route[i]` to
`route[(i + 1) % route.length]`. -/
noncomputable def getRouteDistances (route : List Pt) : List ℝ :=
  (List.range route.length).map fun i =>
    calculateDistance (route.getD i ptZero) (route.getD ((i + 1) % route.length) ptZero)

/-- The `distances` computed inside the TSPVisualizationSVG.tsx memo
(lines 51–55): the same map as `getRouteDistances`, but guarded by
`route.length > 1 ? ... : []`. -/
noncomputable def routeDistancesSVG (route : List Pt) : List ℝ :=
  if route.length > 1 then
    (List.range route.length).map fun i =>
      calculateDistance (route.getD i ptZero) (route.getD ((i + 1) % route.length) ptZero)
  else []

/-- The running accumulation the route table performs
(`cumulativeDistance += distance` row by row, SolutionDetails
lines 671–677): element `i` of the result is `acc` plus the sum of the
first `i + 1` inputs. -/
def accumFrom {α : Type _} [Add α] (acc : α) : List α → List α
  | [] => []
  | d :: ds => (acc + d) :: accumFrom (acc + d) ds

/-- The cumulative-distance column of the route table: accumulate the
segment distances starting from `0`. -/
noncomputable def cumulativeDistances (route : List Pt) : List ℝ :=
  accumFrom 0 (getRouteDistances route)

/-- The coordinate-proximity match of the route table (SolutionDetails
lines 680–683): both axes within an absolute tolerance of `0.001`,
strictly. -/
def matchesWithinTol (op pt : Pt) : Bool :=
  |op.x - pt.x| < 1 / 1000 && |op.y - pt.y| < 1 / 1000

/-- JavaScript's `Array.prototype.findIndex`: index of the first element
satisfying the predicate, `-1` when none does. -/
def jsFindIndex (pred : Pt → Bool) : List Pt → ℤ
  | [] => -1
  | a :: as =>
    if pred a then 0
    else if jsFindIndex pred as = -1 then -1 else jsFindIndex pred as + 1

/-- The `Original #` cell of the route table (SolutionDetails lines
680–683): `originalPoints.findIndex(op => |op.x−pt.x| < 0.001 &&
|op.y−pt.y| < 0.001) + 1`; with no match `findIndex` gives `-1` and the
cell shows `0`. -/
def originalIndexOfRoutePoint (originalPoints : List Pt) (pt : Pt) : ℤ :=
  jsFindIndex (fun op => matchesWithinTol op pt) originalPoints + 1

/-- The selection state held by `App` (App.tsx lines 333–334):
`selectedOriginalPoint` and `selectedRoutePoint`, each `number | null`. -/
structure SelState where
  selectedOriginalPoint : Option ℕ
  selectedRoutePoint : Option ℕ
deriving DecidableEq, Repr

/-- `useState(null)` for both selections. -/
def initialSelState : SelState := ⟨none, none⟩

/-- Clicking row `i` of the original-points table (SolutionDetails
lines 362–368): `onSelectOriginalPoint(selectedOriginalPoint === index ?
null : index)`, with `App` passing `setSelectedOriginalPoint` as the
handler. -/
def clickOriginalPoint (s : SelState) (i : ℕ) : SelState :=
  { s with selectedOriginalPoint :=
      if s.selectedOriginalPoint = some i then none else some i }

/-- Clicking row `i` of the route table (SolutionDetails line 692):
`onSelectRoutePoint(selectedRoutePoint === index ? null : index)`. -/
def clickRoutePoint (s : SelState) (i : ℕ) : SelState :=
  { s with selectedRoutePoint :=
      if s.selectedRoutePoint = some i then none else some i }

/-- The part of a `TSPSolution` the geometric core reads: the uploaded
points and the optional route (`route?: RoutePoint[]`; the `order` field
of a route point is never used by the geometry, only its coordinates). -/
structure Solution where
  originalPoints : List Pt
  route : Option (List Pt)

/-- The geometric data the TSPVisualizationSVG.tsx `useMemo` produces
(lines 43–92), with the viewport constants as parameters: segment
distances computed from the raw route coordinates before any scaling,
then the projected point and route lists.  An absent solution or an
empty point set yields the empty scene. -/
noncomputable def svgSceneGeom (W H p : ℚ) (sol : Option Solution) :
    List (ℚ × ℚ) × List (ℚ × ℚ) × List ℝ :=
  match sol with
  | none => ([], [], [])
  | some s =>
    let points := s.originalPoints
    let route := s.route.getD []
    if points = [] then ([], [], [])
    else
      (points.map (projectPoint W H p points),
       route.map (projectPoint W H p points),
       routeDistancesSVG route)

/-- `document.documentElement.getAttribute('data-theme') === 'dark'`
(TSPVisualizationSVG.tsx line 20): the renderer's theme flag is read
from the ambient document attribute, not from its props. -/
def isDarkTheme (dataTheme : String) : Bool := dataTheme == "dark"

/-- The theme-dependent colors the SVG renderer emits: the surface
background, the grid-pattern stroke and the axis-caption fill
(TSPVisualizationSVG.tsx lines 137, 146, 177). -/
structure SvgStyle where
  background : String
  gridStroke : String
  axisFill : String
deriving DecidableEq, Repr

/-- The color choices as functions of the dark-mode flag. -/
def svgStyleOf (darkMode : Bool) : SvgStyle :=
  { background := if darkMode then "#1e293b" else "#ffffff"
    gridStroke := if darkMode then "#334155" else "#f3f4f6"
    axisFill := if darkMode then "#94a3b8" else "#6b7280" }

/-- A render pass of TSPVisualizationSVG: the scene geometry, the
theme-dependent style, whether route lines are drawn
(`showRoute && scaledRoute.length > 1`), and the two selection inputs
that drive the highlight rings. -/
structure SvgRender where
  scaledPoints : List (ℚ × ℚ)
  scaledRoute : List (ℚ × ℚ)
  routeDistances : List ℝ
  style : SvgStyle
  routeLinesShown : Bool
  selectedOriginalPoint : Option ℕ
  selectedRoutePoint : Option ℕ

/-- One render of TSPVisualizationSVG as a function of its props
(solution, showRoute, the two selections) and of the ambient document
`data-theme` attribute, which the component observes through a
`MutationObserver` rather than receiving as a prop. -/
noncomputable def renderSVG (sol : Option Solution) (showRoute : Bool)
    (selOrig selRoute : Option ℕ) (documentTheme : String) : SvgRender :=
  let geom := svgSceneGeom 800 600 60 sol
  { scaledPoints := geom.1
    scaledRoute := geom.2.1
    routeDistances := geom.2.2
    style := svgStyleOf (isDarkTheme documentTheme)
    routeLinesShown := showRoute && decide (1 < geom.2.1.length)
    selectedOriginalPoint := selOrig
    selectedRoutePoint := selRoute }

/-- `Number.prototype.toFixed(2)` for the non-negative values the tables
display: round to hundredths and print with exactly two decimals. -/
noncomputable def toFixed2 (v : ℝ) : String :=
  let c : ℤ := ⌊v * 100 + 1 / 2⌋
  toString (c / 100) ++ "." ++ (if c % 100 < 10 then "0" else "") ++ toString (c % 100)

/-- `formatDistance` (SolutionDetails lines 315–318):
`if (!distance) return 'N/A'; return distance.toFixed(2)` — JavaScript's
falsiness sends both an absent value and an exact `0` to `'N/A'`. -/
noncomputable def formatDistance : Option ℝ → String
  | none => "N/A"
  | some d => if d = 0 then "N/A" else toFixed2 d

/-- Concrete two-point route used by the witnesses below. -/
def witRoute : List Pt := [⟨0, 0⟩, ⟨3, 4⟩]

section HelperLemmas

lemma getD_map_range {α : Type _} {n : ℕ} (f : ℕ → α) (d : α) {i : ℕ} (h : i < n) :
    ((List.range n).map f).getD i d = f i := by
  rw [List.getD_eq_getElem?_getD, List.getElem?_map, List.getElem?_range h]
  rfl

lemma calculateDistance_nonneg (p1 p2 : Pt) : 0 ≤ calculateDistance p1 p2 :=
  Real.sqrt_nonneg _

lemma calculateDistance_self (p1 : Pt) : calculateDistance p1 p1 = 0 := by
  unfold calculateDistance
  simp

lemma accumFrom_length {α : Type _} [Add α] (acc : α) (l : List α) :
    (accumFrom acc l).length = l.length := by
  induction l generalizing acc with
  | nil => rfl
  | cons d ds ih => simp [accumFrom, ih]

lemma accumFrom_getD (l : List ℝ) (acc : ℝ) (i : ℕ) (h : i < l.length) :
    (accumFrom acc l).getD i 0 = acc + (l.take (i + 1)).sum := by
  induction l generalizing acc i with
  | nil => simp at h
  | cons d ds ih =>
    cases i with
    | zero => simp [accumFrom]
    | succ j =>
      have hj : j < ds.length := by simpa using h
      simp only [accumFrom, List.getD_cons_succ, List.take_succ_cons, List.sum_cons]
      rw [ih (acc + d) j hj]
      ring

lemma getRouteDistances_nonneg (route : List Pt) :
    ∀ v ∈ getRouteDistances route, 0 ≤ v := by
  intro v hv
  rw [getRouteDistances] at hv
  obtain ⟨i, _, rfl⟩ := List.mem_map.mp hv
  exact calculateDistance_nonneg _ _

lemma take_sum_mono {l : List ℝ} (hnn : ∀ v ∈ l, 0 ≤ v) {m n : ℕ} (hmn : m ≤ n) :
    (l.take m).sum ≤ (l.take n).sum := by
  have hsplit : l.take n = l.take m ++ (l.take n).drop m := by
    rw [List.drop_take]
    rw [← List.take_add]
    congr 1
    omega
  rw [hsplit, List.sum_append]
  have h0 : 0 ≤ ((l.take n).drop m).sum := by
    apply List.sum_nonneg
    intro v hv
    exact hnn v (List.mem_of_mem_take (List.mem_of_mem_drop hv))
  linarith

lemma jsFindIndex_spec (pred : Pt → Bool) (l : List Pt) :
    (jsFindIndex pred l = -1 ∧ ∀ x ∈ l, pred x = false) ∨
    (∃ k : ℕ, k < l.length ∧ jsFindIndex pred l = (k : ℤ) ∧
      pred (l.getD k ptZero) = true ∧
      ∀ j : ℕ, j < k → pred (l.getD j ptZero) = false) := by
  induction l with
  | nil => left; exact ⟨rfl, by simp⟩
  | cons a as ih =>
    by_cases ha : pred a = true
    · right
      exact ⟨0, by simp, by simp [jsFindIndex, ha], by simpa using ha, by omega⟩
    · have ha' : pred a = false := by simpa using ha
      rcases ih with ⟨hnone, hall⟩ | ⟨k, hklen, hkval, hkp, hkfirst⟩
      · left
        refine ⟨by simp [jsFindIndex, ha', hnone], ?_⟩
        intro x hx
        rcases List.mem_cons.mp hx with rfl | hx'
        · exact ha'
        · exact hall x hx'
      · right
        refine ⟨k + 1, by simpa using Nat.succ_lt_succ hklen, ?_,
          by simpa using hkp, ?_⟩
        · have hne : jsFindIndex pred as ≠ -1 := by rw [hkval]; omega
          simp only [jsFindIndex, ha', if_false, hne, hkval]
          push_cast
          ring
        · intro j hj
          cases j with
          | zero => simpa using ha'
          | succ m => simpa using hkfirst m (by omega)

lemma toFixed2_five : toFixed2 (5 : ℝ) = "5.00" := by
  have hf : ⌊(5 : ℝ) * 100 + 1 / 2⌋ = (500 : ℤ) := by
    rw [Int.floor_eq_iff]
    norm_num
  simp only [toFixed2, hf]
  decide

end HelperLemmas

/-- Claim C1 (corrected): the projection guarantee holds once the padded
viewport interior is non-degenerate.  For a non-empty point list, a point
of the list, `0 ≤ padding`, `2·padding ≤ width` and `2·padding ≤ height`,
the projected point lies within `[0, width] × [0, height]`.  (As stated
over every viewport with merely positive dimensions the claim fails: see
the counterexample, where the padding exceeds half the viewport.) -/
theorem projection_containment (W H p : ℚ) (pts : List Pt) (pt : Pt)
    (_hW0 : 0 < W) (_hH0 : 0 < H) (hp : 0 ≤ p) (hWp : 2 * p ≤ W) (hHp : 2 * p ≤ H)
    (_hne : pts ≠ []) (hmem : pt ∈ pts) :
    0 ≤ (projectPoint W H p pts pt).1 ∧ (projectPoint W H p pts pt).1 ≤ W ∧
    0 ≤ (projectPoint W H p pts pt).2 ∧ (projectPoint W H p pts pt).2 ≤ H := by
  have hxmem : pt.x ∈ pts.map Pt.x := List.mem_map_of_mem _ hmem
  have hymem : pt.y ∈ pts.map Pt.y := List.mem_map_of_mem _ hmem
  have hminx : listMin (pts.map Pt.x) ≤ pt.x := listMin_le_of_mem hxmem
  have hmaxx : pt.x ≤ listMax (pts.map Pt.x) := le_listMax_of_mem hxmem
  have hminy : listMin (pts.map Pt.y) ≤ pt.y := listMin_le_of_mem hymem
  have hmaxy : pt.y ≤ listMax (pts.map Pt.y) := le_listMax_of_mem hymem
  have hxx : listMin (pts.map Pt.x) ≤ listMax (pts.map Pt.x) := le_trans hminx hmaxx
  have hyy : listMin (pts.map Pt.y) ≤ listMax (pts.map Pt.y) := le_trans hminy hmaxy
  simp only [projectPoint]
  set minX := listMin (pts.map Pt.x)
  set maxX := listMax (pts.map Pt.x)
  set minY := listMin (pts.map Pt.y)
  set maxY := listMax (pts.map Pt.y)
  set rangeX := jsRange (maxX - minX)
  set rangeY := jsRange (maxY - minY)
  have hRXpos : 0 < rangeX := jsRange_pos hxx
  have hRYpos : 0 < rangeY := jsRange_pos hyy
  have hRXge : maxX - minX ≤ rangeX := le_jsRange hxx
  have hRYge : maxY - minY ≤ rangeY := le_jsRange hyy
  set scale := min ((W - 2 * p) / rangeX) ((H - 2 * p) / rangeY)
  have hWp' : 0 ≤ W - 2 * p := by linarith
  have hHp' : 0 ≤ H - 2 * p := by linarith
  have hS0 : 0 ≤ scale :=
    le_min (div_nonneg hWp' hRXpos.le) (div_nonneg hHp' hRYpos.le)
  have hSX : scale * rangeX ≤ W - 2 * p := by
    have h1 : scale ≤ (W - 2 * p) / rangeX := min_le_left _ _
    have h2 := mul_le_mul_of_nonneg_right h1 hRXpos.le
    rwa [div_mul_cancel₀ _ (ne_of_gt hRXpos)] at h2
  have hSY : scale * rangeY ≤ H - 2 * p := by
    have h1 : scale ≤ (H - 2 * p) / rangeY := min_le_right _ _
    have h2 := mul_le_mul_of_nonneg_right h1 hRYpos.le
    rwa [div_mul_cancel₀ _ (ne_of_gt hRYpos)] at h2
  have htx0 : 0 ≤ (pt.x - minX) * scale := mul_nonneg (by linarith) hS0
  have htx1 : (pt.x - minX) * scale ≤ rangeX * scale :=
    mul_le_mul_of_nonneg_right (by linarith) hS0
  have hty0 : 0 ≤ (pt.y - minY) * scale := mul_nonneg (by linarith) hS0
  have hty1 : (pt.y - minY) * scale ≤ rangeY * scale :=
    mul_le_mul_of_nonneg_right (by linarith) hS0
  clear_value minX maxX minY maxY rangeX rangeY scale
  refine ⟨?_, ?_, ?_, ?_⟩ <;>
    linarith [htx0, htx1, hty0, hty1, hSX, hSY, hS0, hp]

/-- Claim C1, counterexample to the claim as stated: the viewport
`60 × 45` has positive dimensions, yet with the canvas renderer's
padding of `40` the projection of `(10, 0)` from the point set
`[(0,0), (10,0)]` has `x`-coordinate `−145 < 0`, outside the viewport. -/
theorem projection_containment_cex :
    (0 : ℚ) < 60 ∧ (0 : ℚ) < 45 ∧
    ([⟨0, 0⟩, ⟨10, 0⟩] : List Pt) ≠ [] ∧
    (⟨10, 0⟩ : Pt) ∈ ([⟨0, 0⟩, ⟨10, 0⟩] : List Pt) ∧
    (projectPoint 60 45 40 [⟨0, 0⟩, ⟨10, 0⟩] ⟨10, 0⟩).1 < 0 := by
  refine ⟨by norm_num, by norm_num, by simp,
    List.mem_cons_of_mem _ (List.mem_cons_self _ _), ?_⟩
  have h : projectPoint 60 45 40 [⟨0, 0⟩, ⟨10, 0⟩] ⟨10, 0⟩ = (-145, 5) := by
    simp only [projectPoint, listMin, listMax, jsRange]
    norm_num [min_def]
  rw [h]
  norm_num

/-- Claim C1, witness: the containment theorem applied to the SVG
viewport `800 × 600` with padding `60` and the points `[(0,0), (3,4)]`. -/
theorem projection_containment_witness :
    0 ≤ (projectPoint 800 600 60 [⟨0, 0⟩, ⟨3, 4⟩] ⟨3, 4⟩).1 ∧
    (projectPoint 800 600 60 [⟨0, 0⟩, ⟨3, 4⟩] ⟨3, 4⟩).1 ≤ 800 ∧
    0 ≤ (projectPoint 800 600 60 [⟨0, 0⟩, ⟨3, 4⟩] ⟨3, 4⟩).2 ∧
    (projectPoint 800 600 60 [⟨0, 0⟩, ⟨3, 4⟩] ⟨3, 4⟩).2 ≤ 600 :=
  projection_containment 800 600 60 [⟨0, 0⟩, ⟨3, 4⟩] ⟨3, 4⟩ (by norm_num) (by norm_num)
    (by norm_num) (by norm_num) (by norm_num) (by simp)
    (List.mem_cons_of_mem _ (List.mem_cons_self _ _))

/-- Claim C2 (confirmed): `getRouteDistances` returns one distance per
route point, and element `i` is the Euclidean distance
`sqrt((x[(i+1) mod n] − x[i])² + (y[(i+1) mod n] − y[i])²)`, so the last
element is the wrap-around distance back to the first point. -/
theorem segment_distances_spec (route : List Pt) (i : ℕ) (h : i < route.length) :
    (getRouteDistances route).length = route.length ∧
    (getRouteDistances route).getD i 0 =
      Real.sqrt ((((route.getD ((i + 1) % route.length) ptZero).x -
          (route.getD i ptZero).x : ℚ) : ℝ) ^ 2 +
        (((route.getD ((i + 1) % route.length) ptZero).y -
          (route.getD i ptZero).y : ℚ) : ℝ) ^ 2) := by
  constructor
  · simp [getRouteDistances]
  · rw [getRouteDistances, getD_map_range _ _ h]
    unfold calculateDistance
    congr 1
    push_cast
    ring

/-- Claim C2, witness: segment `1` of the route `[(0,0), (3,4)]` wraps
around to point `0`. -/
theorem segment_distances_witness :
    1 < witRoute.length ∧
    ((getRouteDistances witRoute).length = witRoute.length ∧
      (getRouteDistances witRoute).getD 1 0 =
        Real.sqrt ((((witRoute.getD ((1 + 1) % witRoute.length) ptZero).x -
            (witRoute.getD 1 ptZero).x : ℚ) : ℝ) ^ 2 +
          (((witRoute.getD ((1 + 1) % witRoute.length) ptZero).y -
            (witRoute.getD 1 ptZero).y : ℚ) : ℝ) ^ 2)) :=
  ⟨by norm_num [witRoute], segment_distances_spec witRoute 1 (by norm_num [witRoute])⟩

/-- Claim C3 (confirmed): the cumulative-distance column (row-by-row
accumulation of the segment distances) is monotonically non-decreasing,
and its last entry is the sum of all segment distances, the total
closed-tour distance. -/
theorem cumulative_monotone_total (route : List Pt) (hne : route ≠ []) :
    (∀ i j : ℕ, i ≤ j → j < (cumulativeDistances route).length →
      (cumulativeDistances route).getD i 0 ≤ (cumulativeDistances route).getD j 0) ∧
    (cumulativeDistances route).getD (route.length - 1) 0 =
      (getRouteDistances route).sum := by
  have hlen : (getRouteDistances route).length = route.length := by
    simp [getRouteDistances]
  constructor
  · intro i j hij hj
    rw [cumulativeDistances, accumFrom_length] at hj
    have hi : i < (getRouteDistances route).length := lt_of_le_of_lt hij hj
    rw [cumulativeDistances, accumFrom_getD _ _ _ hi, accumFrom_getD _ _ _ hj]
    have := take_sum_mono (getRouteDistances_nonneg route) (Nat.succ_le_succ hij)
    linarith
  · have hn : 0 < route.length := List.length_pos.mpr hne
    have hlast : route.length - 1 < (getRouteDistances route).length := by
      rw [hlen]; omega
    rw [cumulativeDistances, accumFrom_getD _ _ _ hlast]
    have : route.length - 1 + 1 = (getRouteDistances route).length := by
      rw [hlen]; omega
    rw [this, List.take_length]
    ring

/-- Claim C3, witness: cumulative distances of the route `[(0,0), (3,4)]`. -/
theorem cumulative_monotone_total_witness :
    witRoute ≠ [] ∧
    ((∀ i j : ℕ, i ≤ j → j < (cumulativeDistances witRoute).length →
        (cumulativeDistances witRoute).getD i 0 ≤ (cumulativeDistances witRoute).getD j 0) ∧
      (cumulativeDistances witRoute).getD (witRoute.length - 1) 0 =
        (getRouteDistances witRoute).sum) :=
  ⟨by simp [witRoute], cumulative_monotone_total witRoute (by simp [witRoute])⟩

/-- Claim C4 (corrected): the table metrics `getRouteDistances` yield a
single zero-distance segment (total `0`) for a one-point route and the
empty list for an empty route, but the SVG renderer's `routeDistances`
(guarded by `route.length > 1`) yield the empty list for a one-point
route as well. -/
theorem degenerate_route_metrics (p : Pt) :
    getRouteDistances [p] = [0] ∧ routeDistancesSVG [p] = [] ∧
    getRouteDistances ([] : List Pt) = [] ∧ routeDistancesSVG ([] : List Pt) = [] ∧
    (getRouteDistances [p]).sum = 0 := by
  have h1 : getRouteDistances [p] = [0] := by
    have hr : List.range 1 = [0] := rfl
    simp [getRouteDistances, hr, calculateDistance_self]
  refine ⟨h1, ?_, ?_, ?_, by rw [h1]; simp⟩
  · simp [routeDistancesSVG]
  · simp [getRouteDistances]
  · simp [routeDistancesSVG]

/-- Claim C4, counterexample to the claim as stated: for the one-point
route `[(0,0)]` the SVG renderer's distance list is empty — not a single
zero-distance segment. -/
theorem degenerate_route_metrics_cex :
    routeDistancesSVG [ptZero] = [] ∧ ([] : List ℝ) ≠ [0] := by
  constructor
  · simp [routeDistancesSVG]
  · simp

/-- Claim C5 (corrected): resolving a route point against
`originalPoints` scans for the first point matching within the strict
`1e-3` absolute tolerance per axis; the displayed value is the found
index plus one, and when no point matches it is `0` (from `findIndex`'s
`-1` plus one) — a number, not `none`.  The function is total (never
throws). -/
theorem resolve_first_match (pts : List Pt) (pt : Pt) :
    (originalIndexOfRoutePoint pts pt = 0 ∧ ∀ op ∈ pts, matchesWithinTol op pt = false) ∨
    (∃ k : ℕ, k < pts.length ∧ originalIndexOfRoutePoint pts pt = (k : ℤ) + 1 ∧
      matchesWithinTol (pts.getD k ptZero) pt = true ∧
      ∀ j : ℕ, j < k → matchesWithinTol (pts.getD j ptZero) pt = false) := by
  rcases jsFindIndex_spec (fun op => matchesWithinTol op pt) pts with
    ⟨hv, hall⟩ | ⟨k, hklen, hv, hp, hfirst⟩
  · left; exact ⟨by simp [originalIndexOfRoutePoint, hv], hall⟩
  · right; exact ⟨k, hklen, by simp [originalIndexOfRoutePoint, hv], hp, hfirst⟩

/-- Claim C5, counterexample to the claim as stated: with
`originalPoints = [(10,10)]` and route point `(0,0)` nothing matches
within tolerance, yet the resolution yields the number `0`, not `none`. -/
theorem resolve_no_match_cex :
    originalIndexOfRoutePoint [⟨10, 10⟩] ⟨0, 0⟩ = 0 ∧
    matchesWithinTol ⟨10, 10⟩ ⟨0, 0⟩ = false := by
  have hm : matchesWithinTol ⟨10, 10⟩ ⟨0, 0⟩ = false := by
    simp only [matchesWithinTol]
    norm_num
  exact ⟨by simp [originalIndexOfRoutePoint, jsFindIndex, hm], hm⟩

/-- Claim C6 (corrected): the two selections are independent, not
exclusive — clicking a row toggles only that view's selection (same
index toggles off) and leaves the other view's selection unchanged, so
both can be active at once. -/
theorem selection_independent_toggle (s : SelState) (i : ℕ) :
    (clickOriginalPoint s i).selectedRoutePoint = s.selectedRoutePoint ∧
    (clickRoutePoint s i).selectedOriginalPoint = s.selectedOriginalPoint ∧
    (clickOriginalPoint s i).selectedOriginalPoint =
      (if s.selectedOriginalPoint = some i then none else some i) ∧
    (clickRoutePoint s i).selectedRoutePoint =
      (if s.selectedRoutePoint = some i then none else some i) :=
  ⟨rfl, rfl, rfl, rfl⟩

/-- Claim C6, counterexample to the claim as stated: from the initial
state, clicking original point `0` and then route point `1` leaves both
selections active — the state machine is not exclusive. -/
theorem selection_not_exclusive_cex :
    (clickRoutePoint (clickOriginalPoint initialSelState 0) 1).selectedOriginalPoint = some 0 ∧
    (clickRoutePoint (clickOriginalPoint initialSelState 0) 1).selectedRoutePoint = some 1 :=
  ⟨rfl, rfl⟩

/-- Claim C7 (corrected): the render output is a pure function of the
component's props *plus* the ambient document theme: the geometry,
route-line flag and selections are independent of the ambient theme and
determined by the props, while the emitted colors are a function of the
`data-theme` attribute, which is read from global document state (via a
`MutationObserver`), not passed as a parameter. -/
theorem render_pure_with_ambient (sol : Option Solution) (showRoute : Bool)
    (selOrig selRoute : Option ℕ) (t1 t2 : String) :
    (renderSVG sol showRoute selOrig selRoute t1).scaledPoints =
      (renderSVG sol showRoute selOrig selRoute t2).scaledPoints ∧
    (renderSVG sol showRoute selOrig selRoute t1).scaledRoute =
      (renderSVG sol showRoute selOrig selRoute t2).scaledRoute ∧
    (renderSVG sol showRoute selOrig selRoute t1).routeDistances =
      (renderSVG sol showRoute selOrig selRoute t2).routeDistances ∧
    (renderSVG sol showRoute selOrig selRoute t1).routeLinesShown =
      (renderSVG sol showRoute selOrig selRoute t2).routeLinesShown ∧
    (renderSVG sol showRoute selOrig selRoute t1).selectedOriginalPoint = selOrig ∧
    (renderSVG sol showRoute selOrig selRoute t1).selectedRoutePoint = selRoute ∧
    (renderSVG sol showRoute selOrig selRoute t1).style = svgStyleOf (isDarkTheme t1) :=
  ⟨rfl, rfl, rfl, rfl, rfl, rfl, rfl⟩

/-- Claim C7, counterexample to the claim as stated: two renders with
identical props but different ambient `data-theme` attributes produce
different visual output (the surface background differs), so the theme
is an ambient mutable input, not an explicit parameter. -/
theorem render_ambient_theme_cex :
    (renderSVG (some ⟨[⟨0, 0⟩], none⟩) true none none "dark").style.background = "#1e293b" ∧
    (renderSVG (some ⟨[⟨0, 0⟩], none⟩) true none none "light").style.background = "#ffffff" ∧
    ("#1e293b" : String) ≠ "#ffffff" :=
  ⟨rfl, rfl, by decide⟩

/-- Claim C8 (corrected): both renderers compute projected positions by
the same affine formula, but instantiated with different viewport
dimensions and padding (SVG: fixed `800 × 600`, padding `60`; canvas:
container-derived size, padding `40`), so for the same input the
positions — hence the emitted primitives — generally differ. -/
theorem renderers_shared_formula (W H : ℚ) (pts : List Pt) (pt : Pt) :
    svgScalePoint pts pt = projectPoint 800 600 60 pts pt ∧
    canvasScalePoint W H pts pt = projectPoint W H 40 pts pt :=
  ⟨rfl, rfl⟩

/-- Claim C8, counterexample to the claim as stated: for the same
points `[(0,0), (1,1)]`, the SVG renderer places `(0,0)` at
`(160, 540)` while the canvas renderer (at its default `600 × 400`
surface) places it at `(140, 360)` — the projected positions differ. -/
theorem renderer_positions_differ_cex :
    svgScalePoint [⟨0, 0⟩, ⟨1, 1⟩] ⟨0, 0⟩ ≠
      canvasScalePoint 600 400 [⟨0, 0⟩, ⟨1, 1⟩] ⟨0, 0⟩ := by
  have h1 : svgScalePoint [⟨0, 0⟩, ⟨1, 1⟩] ⟨0, 0⟩ = (160, 540) := by
    simp only [svgScalePoint, listMin, listMax, jsRange]
    norm_num [min_def]
  have h2 : canvasScalePoint 600 400 [⟨0, 0⟩, ⟨1, 1⟩] ⟨0, 0⟩ = (140, 360) := by
    simp only [canvasScalePoint, listMin, listMax, jsRange]
    norm_num [min_def]
  rw [h1, h2]
  norm_num [Prod.ext_iff]

/-- Claim C9 (confirmed): the segment distances of the rendered scene
are computed from the route's problem-space coordinates before any
scaling, so they are identical for any two viewport parameterisations of
the same solution, and equal the raw-route distance list. -/
theorem distances_viewport_invariant (s : Solution) (W1 H1 p1 W2 H2 p2 : ℚ) :
    (svgSceneGeom W1 H1 p1 (some s)).2.2 = (svgSceneGeom W2 H2 p2 (some s)).2.2 ∧
    (svgSceneGeom W1 H1 p1 (some s)).2.2 =
      (if s.originalPoints = [] then [] else routeDistancesSVG (s.route.getD [])) ∧
    (svgSceneGeom W1 H1 p1 none).2.2 = [] := by
  refine ⟨?_, ?_, rfl⟩
  · simp only [svgSceneGeom]
    split <;> rfl
  · simp only [svgSceneGeom]
    split <;> rfl

/-- Claim C10 (confirmed): `formatDistance` maps an absent distance and
an exactly-zero distance to `"N/A"`, renders every strictly positive
distance with two decimals via `toFixed2`, and consequently a
zero-length segment (two identical consecutive route points) displays
`"N/A"`. -/
theorem format_distance_spec (d : ℝ) (hd : 0 < d) :
    formatDistance none = "N/A" ∧ formatDistance (some 0) = "N/A" ∧
    formatDistance (some d) = toFixed2 d ∧
    ∀ p : Pt, formatDistance (some (calculateDistance p p)) = "N/A" := by
  refine ⟨rfl, by simp [formatDistance], ?_, ?_⟩
  · simp [formatDistance, ne_of_gt hd]
  · intro p
    rw [calculateDistance_self]
    simp [formatDistance]

/-- Claim C10, witness: the positive distance `5` is rendered as
`toFixed2 5` (which evaluates to `"5.00"`, lemma `toFixed2_five`). -/
theorem format_distance_witness :
    (0 : ℝ) < 5 ∧ (formatDistance none = "N/A" ∧ formatDistance (some 0) = "N/A" ∧
      formatDistance (some 5) = toFixed2 5 ∧
      ∀ p : Pt, formatDistance (some (calculateDistance p p)) = "N/A") :=
  ⟨by norm_num, format_distance_spec 5 (by norm_num)⟩

end TSPFrontend
